import Mathlib

/-!
Shallow embedding of `src/src/Mod/Measure/App/MeasureDiameter.cpp`
(class `Measure::MeasureDiameter` of FreeCAD).

The class is an adapter over external APIs (the measurement manager, the
OCCT geometry kernel and the document/property framework).  Those externals
are modelled as an explicit `Kernel` record of functions; the code of
`MeasureDiameter.cpp` itself is translated line by line below.
-/

namespace MeasureDiameter

/-- The values of `App::MeasureElementType` that `MeasureDiameter.cpp`
distinguishes; every other enum value is collapsed into `OTHER`, which the
code treats uniformly (no branch matches it). -/
inductive MeasureElementType where
  | INVALID
  | CIRCLE
  | ARC
  | CYLINDER
  | SURFACE
  | PLANE
  | OTHER
deriving DecidableEq, Repr

/-- The values of `GeomAbs_CurveType` relevant to the code: the code only
tests `GetType() == GeomAbs_Circle`, so every non-circle curve type is
collapsed into `otherCurve`. -/
inductive CurveType where
  | circle
  | otherCurve
deriving DecidableEq, Repr

/-- The values of `TopAbs_ShapeEnum` relevant to the code: the code only
tests `ShapeType() == TopAbs_FACE`. -/
inductive ShapeKind where
  | face
  | otherShape
deriving DecidableEq, Repr

/-- Model of a `TopoDS_Shape` as seen by this file: whether `IsNull()` holds,
its `ShapeType()`, and the curve types of the edges enumerated by
`TopExp_Explorer (shape, TopAbs_EDGE)` in order. -/
structure Shape where
  isNull : Bool
  shapeType : ShapeKind
  edges : List CurveType
deriving DecidableEq, Repr

/-- Model of `App::SubObjectT`: `getObject()` (a possibly null document
object, identified by a `Nat`) and `getSubName()`. -/
structure SubObjectT where
  obj : Option Nat
  subName : String
deriving DecidableEq, Repr

/-- An element of an `App::MeasureSelection`: the code only uses its
`object` field. -/
structure SelectionElement where
  object : SubObjectT
deriving DecidableEq, Repr

/-- Model of `Part::MeasureRadiusInfo` (fields used by this file: `valid`,
`radius`, `pointOnCurve`).  Doubles are modelled as rationals. -/
structure MeasureRadiusInfo where
  valid : Bool
  radius : ℚ
  pointOnCurve : ℚ × ℚ × ℚ
deriving DecidableEq, Repr

/-- The default-constructed `Part::MeasureRadiusInfo` produced by
`std::make_shared<Part::MeasureRadiusInfo>()`: not valid, zero data. -/
def MeasureRadiusInfo.mkDefault : MeasureRadiusInfo :=
  { valid := false, radius := 0, pointOnCurve := (0, 0, 0) }

/-- Model of the `Part::MeasureInfoPtr` returned by `getMeasureInfo`:
its `valid` flag, and the result of
`std::dynamic_pointer_cast<Part::MeasureRadiusInfo>` on it (`none` when the
cast fails). -/
structure MeasureInfo where
  valid : Bool
  asRadiusInfo : Option MeasureRadiusInfo
deriving DecidableEq, Repr

/-- The external host-application APIs the file calls, as an explicit
environment:
`App::MeasureManager::getMeasureElementType`,
`Part::Feature::getShape` (with the fixed options
`NeedSubElement | ResolveLink | Transform`), and
`MeasureBase::getMeasureInfo` (`none` models a null pointer result). -/
structure Kernel where
  getMeasureElementType : SelectionElement → MeasureElementType
  getShape : Option Nat → String → Shape
  getMeasureInfo : SubObjectT → Option MeasureInfo

/-- The value of the `Element` property (`App::PropertyLinkSubList` usage
here: a possibly null object and a list of sub-element names). -/
structure ElementLink where
  object : Option Nat
  subValues : List String
deriving DecidableEq, Repr

/-- The state of a `MeasureDiameter` document object: its two properties and
the framework flags `isRestoring()` / `isRemoving()` read by `onChanged`. -/
structure State where
  element : ElementLink
  diameter : ℚ
  restoring : Bool
  removing : Bool
deriving DecidableEq, Repr

/-- The result of `execute()`: `StdReturn` on success or a
`DocumentObjectExecReturn` carrying an error message. -/
inductive ExecResult where
  | StdReturn
  | error (msg : String)
deriving DecidableEq, Repr

/-- The edge loop of `isValidSelection` (lines 95-101): returns `true` on
the first edge whose adapted curve type is `GeomAbs_Circle`; if the loop
finishes, control falls through to `return false`. -/
def validEdgeLoop : List CurveType → Bool
  | [] => false
  | c :: rest => if c = CurveType.circle then true else validEdgeLoop rest

/-- Translation of `MeasureDiameter::isValidSelection` (lines 62-108). -/
def isValidSelection (K : Kernel) (selection : List SelectionElement) : Bool :=
  match selection with
  | [] => false
  | _ :: _ :: _ => false
  | [element] =>
    let type := K.getMeasureElementType element
    if type = MeasureElementType.INVALID then
      false
    else if type = MeasureElementType.CIRCLE ∨ type = MeasureElementType.ARC
        ∨ type = MeasureElementType.CYLINDER then
      true
    else if type = MeasureElementType.SURFACE ∨ type = MeasureElementType.PLANE then
      let objT := element.object
      let shape := K.getShape objT.obj objT.subName
      if shape.isNull then
        false
      else if shape.shapeType = ShapeKind.face then
        validEdgeLoop shape.edges
      else
        false
    else
      false

/-- The edge loop of `isPrioritizedSelection` (lines 137-151): an edge that
is not a circle returns `false` immediately; a circle edge sets
`foundCircle`; after the loop the result is `foundCircle` (true falls to
`return true`, false falls through to `return false`). -/
def prioritizedEdgeLoop : List CurveType → Bool → Bool
  | [], foundCircle => foundCircle
  | c :: rest, foundCircle =>
    if c ≠ CurveType.circle then false
    else prioritizedEdgeLoop rest (if c = CurveType.circle then true else foundCircle)

/-- Translation of `MeasureDiameter::isPrioritizedSelection` (lines 110-156). -/
def isPrioritizedSelection (K : Kernel) (selection : List SelectionElement) : Bool :=
  if selection.length ≠ 1 then
    false
  else
    match selection with
    | [] => false
    | _ :: _ :: _ => false
    | [element] =>
      let type := K.getMeasureElementType element
      if type = MeasureElementType.CIRCLE ∨ type = MeasureElementType.ARC
          ∨ type = MeasureElementType.CYLINDER then
        true
      else if type = MeasureElementType.SURFACE ∨ type = MeasureElementType.PLANE then
        let objT := element.object
        let shape := K.getShape objT.obj objT.subName
        if shape.isNull then
          false
        else if shape.shapeType = ShapeKind.face then
          prioritizedEdgeLoop shape.edges false
        else
          false
      else
        false

/-- Translation of `MeasureDiameter::parseSelection` (lines 158-165).  `selection.front()`
on an empty vector is undefined behaviour, modelled as `none`; otherwise the
`Element` property is set to the first element's object with the single
sub-element list `{objT.getSubName()}`. -/
def parseSelection (s : State) (selection : List SelectionElement) : Option State :=
  match selection with
  | [] => none
  | element :: _ =>
    let objT := element.object
    some { s with element := { object := objT.obj, subValues := [objT.subName] } }

/-- Translation of `MeasureDiameter::getMeasureInfoFirst` (lines 205-221).  Returns `none`
only when the `dynamic_pointer_cast` to `Part::MeasureRadiusInfo` yields a
null pointer. -/
def getMeasureInfoFirst (K : Kernel) (s : State) : Option MeasureRadiusInfo :=
  match s.element.object, s.element.subValues with
  | none, _ => some MeasureRadiusInfo.mkDefault
  | some _, [] => some MeasureRadiusInfo.mkDefault
  | some object, sub :: _ =>
    match K.getMeasureInfo { obj := some object, subName := sub } with
    | none => some MeasureRadiusInfo.mkDefault
    | some info =>
      if ¬ info.valid then some MeasureRadiusInfo.mkDefault
      else info.asRadiusInfo

/-- Translation of `MeasureDiameter::execute` (lines 167-176). -/
def execute (K : Kernel) (s : State) : State × ExecResult :=
  match getMeasureInfoFirst K s with
  | none => (s, ExecResult.error "Cannot calculate diameter")
  | some info =>
    if ¬ info.valid then
      (s, ExecResult.error "Cannot calculate diameter")
    else
      ({ s with diameter := info.radius * 2 }, ExecResult.StdReturn)

/-- Identity of the property passed to `onChanged`: the address comparison
`prop == &Element` distinguishes the `Element` property from every other
property (identified here by a number). -/
inductive PropId where
  | element
  | diameter
  | other (n : Nat)
deriving DecidableEq, Repr

/-- Modelled from the spec: `DocumentObject::recompute` belongs to the host
application's property/recompute dependency graph and is not part of this
file; per the spec it re-runs the measurement, i.e. calls `execute` on this
object (the returned `DocumentObjectExecReturn` is deleted by the caller). -/
def recompute (K : Kernel) (s : State) : State :=
  (execute K s).1

/-- Translation of `MeasureDiameter::onChanged` (lines 178-190).  The second component
records whether a recompute was triggered.  The call
`MeasureBase::onChanged(prop)` is external and leaves this object's modelled
state unchanged. -/
def onChanged (K : Kernel) (s : State) (prop : PropId) : State × Bool :=
  if s.restoring ∨ s.removing then
    (s, false)
  else if prop = PropId.element then
    (recompute K s, true)
  else
    (s, false)


/-! ## Helper lemmas about the edge loops -/

/-- The `isValidSelection` edge loop succeeds exactly when some edge is a
circle. -/
theorem validEdgeLoop_iff (l : List CurveType) :
    validEdgeLoop l = true ↔ ∃ c ∈ l, c = CurveType.circle := by
  induction l with
  | nil => simp [validEdgeLoop]
  | cons c rest ih =>
    by_cases hc : c = CurveType.circle
    · simp [validEdgeLoop, hc]
    · simp [validEdgeLoop, hc, ih]
      exact fun h2 => absurd h2.symm hc

/-- A successful run of the `isPrioritizedSelection` edge loop over a
non-empty edge list forces its head to be a circle. -/
theorem prioritizedEdgeLoop_head (c : CurveType) (rest : List CurveType) (b : Bool)
    (h : prioritizedEdgeLoop (c :: rest) b = true) : c = CurveType.circle := by
  by_contra hc
  simp [prioritizedEdgeLoop, hc] at h

/-! ## Concrete fixtures used by counterexamples and witnesses -/

/-- A face whose edges are one non-circular curve followed by one circle. -/
def mixedFace : Shape :=
  { isNull := false, shapeType := ShapeKind.face,
    edges := [CurveType.otherCurve, CurveType.circle] }

/-- A concrete selection element naming sub-element `Face1` of object 1. -/
def faceElem : SelectionElement :=
  { object := { obj := some 1, subName := "Face1" } }

/-- A kernel classifying every element as `SURFACE` and resolving every
element to `mixedFace`. -/
def mixedKernel : Kernel :=
  { getMeasureElementType := fun _ => MeasureElementType.SURFACE,
    getShape := fun _ _ => mixedFace,
    getMeasureInfo := fun _ => none }

/-- A kernel classifying every element as `SURFACE` and resolving every
element to a face with a single circular edge. -/
def allCircleKernel : Kernel :=
  { getMeasureElementType := fun _ => MeasureElementType.SURFACE,
    getShape := fun _ _ =>
      { isNull := false, shapeType := ShapeKind.face, edges := [CurveType.circle] },
    getMeasureInfo := fun _ => none }

/-- A kernel classifying every element as `SURFACE` and resolving every
element to a face with no edges at all. -/
def emptyEdgesKernel : Kernel :=
  { getMeasureElementType := fun _ => MeasureElementType.SURFACE,
    getShape := fun _ _ =>
      { isNull := false, shapeType := ShapeKind.face, edges := [] },
    getMeasureInfo := fun _ => none }

/-- A kernel classifying every element as `CIRCLE`. -/
def circleKernel : Kernel :=
  { getMeasureElementType := fun _ => MeasureElementType.CIRCLE,
    getShape := fun _ _ =>
      { isNull := true, shapeType := ShapeKind.otherShape, edges := [] },
    getMeasureInfo := fun _ => none }

/-- A concrete selection element naming sub-element `Edge1` of object 2. -/
def edgeElem : SelectionElement :=
  { object := { obj := some 2, subName := "Edge1" } }

/-! ## Claims -/

/-- C1 (counterexample): for the single-element selection `[faceElem]` under
`mixedKernel` the measure element type is `SURFACE`, `isValidSelection`
returns `true`, the resolved shape is a non-null face, yet NOT all of its
boundary edges are circular — refuting the claimed equivalence. -/
theorem C1_counterexample :
    mixedKernel.getMeasureElementType faceElem = MeasureElementType.SURFACE ∧
    isValidSelection mixedKernel [faceElem] = true ∧
    (mixedKernel.getShape faceElem.object.obj faceElem.object.subName).isNull = false ∧
    (mixedKernel.getShape faceElem.object.obj faceElem.object.subName).shapeType
      = ShapeKind.face ∧
    ¬ (∀ c ∈ (mixedKernel.getShape faceElem.object.obj faceElem.object.subName).edges,
        c = CurveType.circle) := by
  refine ⟨rfl, rfl, rfl, rfl, ?_⟩
  decide

/-- C1 (amended): for every selection containing exactly one element whose
measure element type is `SURFACE` or `PLANE`, `isValidSelection` returns
`true` iff the shape resolved from that element is a non-null face at least
one of whose boundary edges is a circular curve. -/
theorem C1_surface_valid_iff (K : Kernel) (e : SelectionElement)
    (h : K.getMeasureElementType e = MeasureElementType.SURFACE ∨
         K.getMeasureElementType e = MeasureElementType.PLANE) :
    isValidSelection K [e] = true ↔
      ((K.getShape e.object.obj e.object.subName).isNull = false ∧
       (K.getShape e.object.obj e.object.subName).shapeType = ShapeKind.face ∧
       ∃ c ∈ (K.getShape e.object.obj e.object.subName).edges, c = CurveType.circle) := by
  rcases h with h | h <;>
  · simp only [isValidSelection, h]
    by_cases hn : (K.getShape e.object.obj e.object.subName).isNull
    · simp [hn]
    · by_cases hf : (K.getShape e.object.obj e.object.subName).shapeType = ShapeKind.face
      · simp [hn, hf, validEdgeLoop_iff]
      · simp [hn, hf]

/-- C1 (witness): the amended equivalence instantiated at `mixedKernel` and
`faceElem`, whose type is `SURFACE`. -/
theorem C1_surface_valid_iff_witness :
    (mixedKernel.getMeasureElementType faceElem = MeasureElementType.SURFACE ∨
     mixedKernel.getMeasureElementType faceElem = MeasureElementType.PLANE) ∧
    (isValidSelection mixedKernel [faceElem] = true ↔
      ((mixedKernel.getShape faceElem.object.obj faceElem.object.subName).isNull = false ∧
       (mixedKernel.getShape faceElem.object.obj faceElem.object.subName).shapeType
         = ShapeKind.face ∧
       ∃ c ∈ (mixedKernel.getShape faceElem.object.obj faceElem.object.subName).edges,
         c = CurveType.circle)) :=
  ⟨Or.inl rfl, C1_surface_valid_iff mixedKernel faceElem (Or.inl rfl)⟩

/-- C3: for every selection containing exactly one element whose measure
element type is `CIRCLE`, `ARC`, or `CYLINDER`, `isValidSelection` returns
`true`. -/
theorem C3_circle_arc_cylinder_valid (K : Kernel) (e : SelectionElement)
    (h : K.getMeasureElementType e = MeasureElementType.CIRCLE ∨
         K.getMeasureElementType e = MeasureElementType.ARC ∨
         K.getMeasureElementType e = MeasureElementType.CYLINDER) :
    isValidSelection K [e] = true := by
  rcases h with h | h | h <;> simp [isValidSelection, h]

/-- C3 (witness): instantiated at `circleKernel` and `edgeElem`. -/
theorem C3_circle_arc_cylinder_valid_witness :
    (circleKernel.getMeasureElementType edgeElem = MeasureElementType.CIRCLE ∨
     circleKernel.getMeasureElementType edgeElem = MeasureElementType.ARC ∨
     circleKernel.getMeasureElementType edgeElem = MeasureElementType.CYLINDER) ∧
    isValidSelection circleKernel [edgeElem] = true :=
  ⟨Or.inl rfl, C3_circle_arc_cylinder_valid circleKernel edgeElem (Or.inl rfl)⟩

/-- C4: for every selection that is empty or has more than one element, both
`isValidSelection` and `isPrioritizedSelection` return `false`. -/
theorem C4_nonsingleton_rejected (K : Kernel) (sel : List SelectionElement)
    (h : sel = [] ∨ 1 < sel.length) :
    isValidSelection K sel = false ∧ isPrioritizedSelection K sel = false := by
  rcases h with h | h
  · subst h; exact ⟨rfl, rfl⟩
  · match sel, h with
    | e1 :: e2 :: rest, _ =>
      refine ⟨rfl, ?_⟩
      simp [isPrioritizedSelection]

/-- C4 (witness): instantiated at the two-element selection
`[faceElem, edgeElem]`. -/
theorem C4_nonsingleton_rejected_witness :
    ([faceElem, edgeElem] = ([] : List SelectionElement) ∨
      1 < [faceElem, edgeElem].length) ∧
    isValidSelection circleKernel [faceElem, edgeElem] = false ∧
    isPrioritizedSelection circleKernel [faceElem, edgeElem] = false :=
  ⟨Or.inr (by decide),
   C4_nonsingleton_rejected circleKernel [faceElem, edgeElem] (Or.inr (by decide))⟩

/-- A valid radius measurement of radius 3 at the origin. -/
def okInfo : MeasureRadiusInfo :=
  { valid := true, radius := 3, pointOnCurve := (0, 0, 0) }

/-- A kernel whose measurement query always yields the valid `okInfo`. -/
def okKernel : Kernel :=
  { getMeasureElementType := fun _ => MeasureElementType.CIRCLE,
    getShape := fun _ _ =>
      { isNull := true, shapeType := ShapeKind.otherShape, edges := [] },
    getMeasureInfo := fun _ => some { valid := true, asRadiusInfo := some okInfo } }

/-- A state whose `Element` property links sub-element `Edge1` of object 1. -/
def okState : State :=
  { element := { object := some 1, subValues := ["Edge1"] },
    diameter := 0, restoring := false, removing := false }

/-- A state whose `Element` property references no object. -/
def noneState : State :=
  { element := { object := none, subValues := [] },
    diameter := 5, restoring := false, removing := false }

/-- C2: whenever the first measure info obtained for the `Element` property
exists and is valid, `execute` sets `Diameter` to exactly twice the radius
reported by the kernel and returns the success result. -/
theorem C2_execute_success (K : Kernel) (s : State) (info : MeasureRadiusInfo)
    (h : getMeasureInfoFirst K s = some info) (hv : info.valid = true) :
    execute K s = ({ s with diameter := info.radius * 2 }, ExecResult.StdReturn) := by
  simp [execute, h, hv]

/-- C2 (witness): instantiated at `okKernel` and `okState`, where the
measured radius is 3 and the stored diameter becomes 6. -/
theorem C2_execute_success_witness :
    getMeasureInfoFirst okKernel okState = some okInfo ∧ okInfo.valid = true ∧
    execute okKernel okState
      = ({ okState with diameter := okInfo.radius * 2 }, ExecResult.StdReturn) :=
  ⟨rfl, rfl, C2_execute_success okKernel okState okInfo rfl rfl⟩

/-- C5: whenever the first measure info is absent (null cast) or not valid,
`execute` returns the error result `"Cannot calculate diameter"` and the
state — including the `Diameter` property — is unchanged. -/
theorem C5_execute_error (K : Kernel) (s : State)
    (h : getMeasureInfoFirst K s = none ∨
        ∃ info, getMeasureInfoFirst K s = some info ∧ info.valid = false) :
    execute K s = (s, ExecResult.error "Cannot calculate diameter") := by
  rcases h with h | ⟨info, h, hv⟩
  · simp [execute, h]
  · simp [execute, h, hv]

/-- C5 (witness): instantiated at `noneState`, whose `Element` references no
object, so the default (invalid) info is obtained; the diameter keeps its
previous value 5. -/
theorem C5_execute_error_witness :
    (getMeasureInfoFirst okKernel noneState = none ∨
      ∃ info, getMeasureInfoFirst okKernel noneState = some info ∧ info.valid = false) ∧
    execute okKernel noneState = (noneState, ExecResult.error "Cannot calculate diameter") :=
  ⟨Or.inr ⟨MeasureRadiusInfo.mkDefault, rfl, rfl⟩,
   C5_execute_error okKernel noneState (Or.inr ⟨MeasureRadiusInfo.mkDefault, rfl, rfl⟩)⟩

/-- A successful run of the `isPrioritizedSelection` edge loop started with
`foundCircle = false` implies a successful run of the `isValidSelection`
edge loop on the same edges. -/
theorem prioritizedEdgeLoop_imp_validEdgeLoop (l : List CurveType)
    (h : prioritizedEdgeLoop l false = true) : validEdgeLoop l = true := by
  cases l with
  | nil => simp [prioritizedEdgeLoop] at h
  | cons c rest =>
    have hc := prioritizedEdgeLoop_head c rest false h
    simp [validEdgeLoop, hc]

/-- Characterization of `isValidSelection` on a single `SURFACE`/`PLANE`
element, in terms of the resolved shape and the edge loop. -/
theorem valid_single_surface (K : Kernel) (e : SelectionElement)
    (h : K.getMeasureElementType e = MeasureElementType.SURFACE ∨
         K.getMeasureElementType e = MeasureElementType.PLANE) :
    isValidSelection K [e] =
      (!(K.getShape e.object.obj e.object.subName).isNull &&
       decide ((K.getShape e.object.obj e.object.subName).shapeType = ShapeKind.face) &&
       validEdgeLoop (K.getShape e.object.obj e.object.subName).edges) := by
  rcases h with h | h <;>
  · simp only [isValidSelection, h]
    by_cases hn : (K.getShape e.object.obj e.object.subName).isNull <;>
      by_cases hf : (K.getShape e.object.obj e.object.subName).shapeType = ShapeKind.face <;>
      simp [hn, hf]

/-- Characterization of `isPrioritizedSelection` on a single
`SURFACE`/`PLANE` element, in terms of the resolved shape and its edge
loop. -/
theorem prioritized_single_surface (K : Kernel) (e : SelectionElement)
    (h : K.getMeasureElementType e = MeasureElementType.SURFACE ∨
         K.getMeasureElementType e = MeasureElementType.PLANE) :
    isPrioritizedSelection K [e] =
      (!(K.getShape e.object.obj e.object.subName).isNull &&
       decide ((K.getShape e.object.obj e.object.subName).shapeType = ShapeKind.face) &&
       prioritizedEdgeLoop (K.getShape e.object.obj e.object.subName).edges false) := by
  rcases h with h | h <;>
  · simp only [isPrioritizedSelection, h]
    by_cases hn : (K.getShape e.object.obj e.object.subName).isNull <;>
      by_cases hf : (K.getShape e.object.obj e.object.subName).shapeType = ShapeKind.face <;>
      simp [hn, hf]

/-- C6: every prioritized selection is also valid; and a single-element
`SURFACE`/`PLANE` selection resolving to a face with no boundary edges at
all is rejected by `isPrioritizedSelection`. -/
theorem C6_prioritized_implies_valid (K : Kernel) (sel : List SelectionElement) :
    (isPrioritizedSelection K sel = true → isValidSelection K sel = true) ∧
    (∀ e, sel = [e] →
      (K.getMeasureElementType e = MeasureElementType.SURFACE ∨
       K.getMeasureElementType e = MeasureElementType.PLANE) →
      (K.getShape e.object.obj e.object.subName).edges = [] →
      isPrioritizedSelection K sel = false) := by
  constructor
  · intro h
    match sel with
    | [] => simp [isPrioritizedSelection] at h
    | _ :: _ :: _ => simp [isPrioritizedSelection] at h
    | [e] =>
      rcases ht : K.getMeasureElementType e with _ | _ | _ | _ | _ | _ | _
      case INVALID => simp [isPrioritizedSelection, ht] at h
      case CIRCLE => simp [isValidSelection, ht]
      case ARC => simp [isValidSelection, ht]
      case CYLINDER => simp [isValidSelection, ht]
      case OTHER => simp [isPrioritizedSelection, ht] at h
      case SURFACE =>
        rw [prioritized_single_surface K e (Or.inl ht)] at h
        rw [valid_single_surface K e (Or.inl ht)]
        simp only [Bool.and_eq_true, Bool.not_eq_true', decide_eq_true_eq] at h ⊢
        exact ⟨⟨h.1.1, h.1.2⟩, prioritizedEdgeLoop_imp_validEdgeLoop _ h.2⟩
      case PLANE =>
        rw [prioritized_single_surface K e (Or.inr ht)] at h
        rw [valid_single_surface K e (Or.inr ht)]
        simp only [Bool.and_eq_true, Bool.not_eq_true', decide_eq_true_eq] at h ⊢
        exact ⟨⟨h.1.1, h.1.2⟩, prioritizedEdgeLoop_imp_validEdgeLoop _ h.2⟩
  · intro e hsel ht he
    subst hsel
    rcases ht with ht | ht <;>
    · simp only [isPrioritizedSelection, ht]
      by_cases hn : (K.getShape e.object.obj e.object.subName).isNull
      · simp [hn]
      · by_cases hf : (K.getShape e.object.obj e.object.subName).shapeType = ShapeKind.face
        · simp [hn, hf, he, prioritizedEdgeLoop]
        · simp [hn, hf]

/-- C6 (witness): a prioritized all-circle face selection is valid, and a
face with no edges is not prioritized. -/
theorem C6_prioritized_implies_valid_witness :
    isValidSelection allCircleKernel [faceElem] = true ∧
    isPrioritizedSelection emptyEdgesKernel [faceElem] = false :=
  ⟨(C6_prioritized_implies_valid allCircleKernel [faceElem]).1 rfl,
   (C6_prioritized_implies_valid emptyEdgesKernel [faceElem]).2 faceElem rfl (Or.inl rfl) rfl⟩

/-- C7: a successful `execute` modifies only the `Diameter` property: the
`Element` property and the remaining state fields are unchanged. -/
theorem C7_success_frame (K : Kernel) (s s2 : State)
    (h : execute K s = (s2, ExecResult.StdReturn)) :
    s2.element = s.element ∧ s2.restoring = s.restoring ∧ s2.removing = s.removing := by
  unfold execute at h
  cases hi : getMeasureInfoFirst K s with
  | none => rw [hi] at h; simp at h
  | some info =>
    rw [hi] at h
    by_cases hv : info.valid = true
    · simp only [hv, Bool.true_eq_false, not_true_eq_false, if_false, Prod.mk.injEq] at h
      rw [← h.1]
      exact ⟨rfl, rfl, rfl⟩
    · simp [hv] at h

/-- C7 (witness): the frame condition instantiated at the successful run of
`execute` on `okKernel` and `okState`. -/
theorem C7_success_frame_witness :
    execute okKernel okState
      = ({ okState with diameter := okInfo.radius * 2 }, ExecResult.StdReturn) ∧
    ({ okState with diameter := okInfo.radius * 2 } : State).element = okState.element ∧
    ({ okState with diameter := okInfo.radius * 2 } : State).restoring = okState.restoring ∧
    ({ okState with diameter := okInfo.radius * 2 } : State).removing = okState.removing :=
  ⟨rfl, C7_success_frame okKernel okState { okState with diameter := okInfo.radius * 2 } rfl⟩

/-- C8: when the `Element` property changes while the object is neither
restoring nor being removed, `onChanged` triggers a recompute, leaving the
state produced by re-running `execute`; a change to any other property, or
any change during restore or removal, triggers no recompute. -/
theorem C8_onChanged_element_recomputes (K : Kernel) (s : State) (prop : PropId) :
    (prop = PropId.element → s.restoring = false → s.removing = false →
      onChanged K s prop = ((execute K s).1, true)) ∧
    ((prop ≠ PropId.element ∨ s.restoring = true ∨ s.removing = true) →
      (onChanged K s prop).2 = false) := by
  constructor
  · intro hp h1 h2
    simp [onChanged, hp, h1, h2, recompute]
  · intro h
    rcases h with h | h | h
    · by_cases hr : s.restoring ∨ s.removing
      · simp [onChanged, hr]
      · simp [onChanged, hr, h]
    · simp [onChanged, h]
    · simp [onChanged, h]

/-- C8 (witness): instantiated at `okState` (not restoring, not removing)
for the `Element` property and for an unrelated property. -/
theorem C8_onChanged_element_recomputes_witness :
    onChanged okKernel okState PropId.element = ((execute okKernel okState).1, true) ∧
    (onChanged okKernel okState (PropId.other 0)).2 = false :=
  ⟨(C8_onChanged_element_recomputes okKernel okState PropId.element).1 rfl rfl rfl,
   (C8_onChanged_element_recomputes okKernel okState (PropId.other 0)).2
     (Or.inl (by decide))⟩

/-- C9: `parseSelection` is undefined (models `front()` on an empty vector)
exactly on the empty selection; on any non-empty selection it sets the
`Element` property to the first element's object with the single sub-element
list containing that element's sub-name, ignoring all further elements. -/
theorem C9_parseSelection_first (s : State) (sel : List SelectionElement) :
    (sel = [] → parseSelection s sel = none) ∧
    (∀ e rest, sel = e :: rest →
      parseSelection s sel =
        some { s with element :=
          { object := e.object.obj, subValues := [e.object.subName] } }) := by
  constructor
  · intro h; subst h; rfl
  · intro e rest h; subst h; rfl

/-- C9 (witness): the empty selection gives no result, and a two-element
selection stores only the first element, with the second ignored. -/
theorem C9_parseSelection_first_witness :
    parseSelection okState [] = none ∧
    parseSelection okState [faceElem, edgeElem] =
      some { okState with element :=
        { object := faceElem.object.obj, subValues := [faceElem.object.subName] } } :=
  ⟨(C9_parseSelection_first okState []).1 rfl,
   (C9_parseSelection_first okState [faceElem, edgeElem]).2 faceElem [edgeElem] rfl⟩

end MeasureDiameter
